import Mathlib

/-!
Verification of the zc_messaging reaction engine and data-gateway helpers.

The reaction engine lives in `backend/utils/message_utils.py`; the data
gateway in `backend/utils/db.py`.  Python dicts/Pydantic models for a
single emoji reaction are embedded as the structure `Emoji`; the Python
functions become Lean functions below.

Aliasing model: in the Python code, `append_emoji`, `remove_emoji` and
`toggle_reaction` mutate the `emoji` dict in place, and the caller's
`reactions` list holds a reference to that very dict (the emoji being
toggled is an element of the list).  The functional embedding makes the
heap relation explicit: each operation takes the index `i` at which the
aliased emoji sits in `reactions`, and returns the pair of the mutated
emoji (the Python return value) and the reaction list as the caller
observes it after the in-place mutation (element `i` overwritten, plus
any structural deletion the source performs).
-/

/-- An emoji reaction on a message: `name`, the ids of users who reacted
(`reactedUsersId`, a Python list, insertion-ordered), and `count`
(a Python int, so embedded as `Int`).  A reaction payload has the same
shape, its `reactedUsersId` holding the acting user's id. -/
structure Emoji where
  name : String
  reactedUsersId : List String
  count : Int

deriving instance DecidableEq for Emoji

/-- The acting user of a payload: Python `payload.reactedUsersId[0]`.
Python raises `IndexError` when the list is empty; every claim assumes a
non-empty payload, under which `headD` agrees with the Python indexing. -/
def acting (payload : Emoji) : String :=
  payload.reactedUsersId.headD ""

/-- Python `append_emoji(emoji, payload)` from message_utils.py lines
76-90: `emoji["reactedUsersId"].append(payload.reactedUsersId[0])`,
`emoji["count"] += 1`, `return emoji`.  The list component records the
effect the in-place mutation has on the aliased element `i` of the
caller's `reactions` (the Python function touches no other element). -/
def append_emoji (emoji payload : Emoji) (reactions : List Emoji) (i : Nat) :
    Emoji × List Emoji :=
  let emoji' : Emoji :=
    { emoji with
      reactedUsersId := emoji.reactedUsersId ++ [acting payload]
      count := emoji.count + 1 }
  (emoji', reactions.set i emoji')

/-- Python `remove_emoji(emoji, payload, reactions)` from message_utils.py
lines 93-110: `emoji["reactedUsersId"].remove(payload.reactedUsersId[0])`
(drops the first occurrence, as Python `list.remove` does),
`emoji["count"] -= 1`, and when the count reaches zero
`reactions.remove(emoji)` deletes the first element of the list equal to
the mutated emoji.  `List.erase` matches Python `list.remove` on both. -/
def remove_emoji (emoji payload : Emoji) (reactions : List Emoji) (i : Nat) :
    Emoji × List Emoji :=
  let emoji' : Emoji :=
    { emoji with
      reactedUsersId := emoji.reactedUsersId.erase (acting payload)
      count := emoji.count - 1 }
  let rs := reactions.set i emoji'
  (emoji', if emoji'.count = 0 then rs.erase emoji' else rs)

/-- Python `toggle_reaction(emoji, payload, reactions)` from
message_utils.py lines 113-126: dispatches on
`payload.reactedUsersId[0] not in emoji["reactedUsersId"]`. -/
def toggle_reaction (emoji payload : Emoji) (reactions : List Emoji) (i : Nat) :
    Emoji × List Emoji :=
  if acting payload ∉ emoji.reactedUsersId then
    append_emoji emoji payload reactions i
  else
    remove_emoji emoji payload reactions i

/-- Python `get_member_emoji(emoji_name, emojis)` from message_utils.py
lines 129-142: `if not emojis: return None`, then the `for` loop body
`return emoji if emoji_name == emoji["name"] else None` returns on its
very first iteration, so only the head of the list is ever examined. -/
def get_member_emoji (emoji_name : String) (emojis : List Emoji) : Option Emoji :=
  match emojis with
  | [] => none
  | emoji :: _ => if emoji_name = emoji.name then some emoji else none

/-- The documented reaction invariant: `count == size(reactedUsersId)`. -/
def countInvariant (e : Emoji) : Prop :=
  e.count = (e.reactedUsersId.length : Int)

instance (e : Emoji) : Decidable (countInvariant e) :=
  inferInstanceAs (Decidable (e.count = (e.reactedUsersId.length : Int)))

/-- Helper: overwriting a list position with the value already there is the
identity. -/
theorem list_set_of_mem_getElem {α : Type} {l : List α} {i : Nat} {a : α}
    (h : l[i]? = some a) : l.set i a = l := by
  induction l generalizing i with
  | nil => simp at h
  | cons x xs ih =>
    cases i with
    | zero =>
      simp only [List.getElem?_cons_zero, Option.some.injEq] at h
      simp [List.set, h]
    | succ n =>
      simp only [List.getElem?_cons_succ] at h
      simp [List.set, ih h]

/-- C1: for every emoji reaction, reaction list, and payload with non-empty
`reactedUsersId`, `toggle_reaction` performs `append_emoji` when the acting
user is not in the reaction's `reactedUsersId`, and `remove_emoji`
otherwise; no other outcome is possible. -/
theorem toggle_reaction_dispatch (emoji payload : Emoji) (reactions : List Emoji)
    (i : Nat) (hp : payload.reactedUsersId ≠ []) :
    (acting payload ∉ emoji.reactedUsersId ∧
        toggle_reaction emoji payload reactions i =
          append_emoji emoji payload reactions i) ∨
    (acting payload ∈ emoji.reactedUsersId ∧
        toggle_reaction emoji payload reactions i =
          remove_emoji emoji payload reactions i) := by
  by_cases h : acting payload ∈ emoji.reactedUsersId
  · exact Or.inr ⟨h, by simp [toggle_reaction, h]⟩
  · exact Or.inl ⟨h, by simp [toggle_reaction, h]⟩

theorem toggle_reaction_dispatch_witness :
    (acting (Emoji.mk "x" ["u2"] 0) ∉ (Emoji.mk "x" ["u1"] 1).reactedUsersId ∧
        toggle_reaction (Emoji.mk "x" ["u1"] 1) (Emoji.mk "x" ["u2"] 0) [] 0 =
          append_emoji (Emoji.mk "x" ["u1"] 1) (Emoji.mk "x" ["u2"] 0) [] 0) ∨
    (acting (Emoji.mk "x" ["u2"] 0) ∈ (Emoji.mk "x" ["u1"] 1).reactedUsersId ∧
        toggle_reaction (Emoji.mk "x" ["u1"] 1) (Emoji.mk "x" ["u2"] 0) [] 0 =
          remove_emoji (Emoji.mk "x" ["u1"] 1) (Emoji.mk "x" ["u2"] 0) [] 0) :=
  toggle_reaction_dispatch (Emoji.mk "x" ["u1"] 1) (Emoji.mk "x" ["u2"] 0) [] 0
    (by decide)

/-- C2: the invariant `count == size(reactedUsersId)` (hence `count ≥ 0`)
is preserved by `append_emoji` when the acting user is absent, by
`remove_emoji` when the acting user is present, and by `toggle_reaction`
unconditionally, for every payload with non-empty `reactedUsersId`. -/
theorem reaction_invariant_preserved (emoji payload : Emoji)
    (reactions : List Emoji) (i : Nat)
    (hp : payload.reactedUsersId ≠ []) (hinv : countInvariant emoji) :
    (acting payload ∉ emoji.reactedUsersId →
        countInvariant (append_emoji emoji payload reactions i).1 ∧
          0 ≤ (append_emoji emoji payload reactions i).1.count) ∧
    (acting payload ∈ emoji.reactedUsersId →
        countInvariant (remove_emoji emoji payload reactions i).1 ∧
          0 ≤ (remove_emoji emoji payload reactions i).1.count) ∧
    (countInvariant (toggle_reaction emoji payload reactions i).1 ∧
        0 ≤ (toggle_reaction emoji payload reactions i).1.count) := by
  have happ : countInvariant (append_emoji emoji payload reactions i).1 ∧
      0 ≤ (append_emoji emoji payload reactions i).1.count := by
    simp only [countInvariant] at hinv
    simp only [append_emoji, countInvariant, List.length_append,
      List.length_cons, List.length_nil]
    push_cast
    omega
  have hrem : acting payload ∈ emoji.reactedUsersId →
      countInvariant (remove_emoji emoji payload reactions i).1 ∧
        0 ≤ (remove_emoji emoji payload reactions i).1.count := by
    intro hm
    have hlen : (emoji.reactedUsersId.erase (acting payload)).length =
        emoji.reactedUsersId.length - 1 := List.length_erase_of_mem hm
    have hpos : 0 < emoji.reactedUsersId.length :=
      List.length_pos.mpr (List.ne_nil_of_mem hm)
    simp only [countInvariant] at hinv
    simp only [remove_emoji, countInvariant, hlen]
    omega
  refine ⟨fun _ => happ, hrem, ?_⟩
  by_cases h : acting payload ∈ emoji.reactedUsersId
  · simpa [toggle_reaction, h] using hrem h
  · simpa [toggle_reaction, h] using happ

theorem reaction_invariant_preserved_witness :
    (acting (Emoji.mk "x" ["u1"] 0) ∉ (Emoji.mk "x" ["u1"] 1).reactedUsersId →
        countInvariant (append_emoji (Emoji.mk "x" ["u1"] 1) (Emoji.mk "x" ["u1"] 0)
            [Emoji.mk "x" ["u1"] 1] 0).1 ∧
          0 ≤ (append_emoji (Emoji.mk "x" ["u1"] 1) (Emoji.mk "x" ["u1"] 0)
            [Emoji.mk "x" ["u1"] 1] 0).1.count) ∧
    (acting (Emoji.mk "x" ["u1"] 0) ∈ (Emoji.mk "x" ["u1"] 1).reactedUsersId →
        countInvariant (remove_emoji (Emoji.mk "x" ["u1"] 1) (Emoji.mk "x" ["u1"] 0)
            [Emoji.mk "x" ["u1"] 1] 0).1 ∧
          0 ≤ (remove_emoji (Emoji.mk "x" ["u1"] 1) (Emoji.mk "x" ["u1"] 0)
            [Emoji.mk "x" ["u1"] 1] 0).1.count) ∧
    (countInvariant (toggle_reaction (Emoji.mk "x" ["u1"] 1) (Emoji.mk "x" ["u1"] 0)
        [Emoji.mk "x" ["u1"] 1] 0).1 ∧
      0 ≤ (toggle_reaction (Emoji.mk "x" ["u1"] 1) (Emoji.mk "x" ["u1"] 0)
        [Emoji.mk "x" ["u1"] 1] 0).1.count) :=
  reaction_invariant_preserved (Emoji.mk "x" ["u1"] 1) (Emoji.mk "x" ["u1"] 0)
    [Emoji.mk "x" ["u1"] 1] 0 (by decide) (by decide)


/-- C3: when the acting user is present, `remove_emoji` removes exactly that
user id from `reactedUsersId`, decrements `count` by exactly 1, and deletes
the reaction from the enclosing `reactions` list exactly when the resulting
count is 0 (otherwise the updated reaction stays in the list); in
particular, removing one of two reacted users leaves a reaction with the
other user and count 1 still in the list. -/
theorem remove_emoji_removes_user (emoji payload : Emoji) (reactions : List Emoji)
    (i : Nat) (hp : payload.reactedUsersId ≠ [])
    (hm : acting payload ∈ emoji.reactedUsersId)
    (hi : reactions[i]? = some emoji) :
    (remove_emoji emoji payload reactions i).1.reactedUsersId =
        emoji.reactedUsersId.erase (acting payload) ∧
    (remove_emoji emoji payload reactions i).1.count = emoji.count - 1 ∧
    ((remove_emoji emoji payload reactions i).1.count = 0 →
        (remove_emoji emoji payload reactions i).2.length = reactions.length - 1) ∧
    ((remove_emoji emoji payload reactions i).1.count ≠ 0 →
        (remove_emoji emoji payload reactions i).2 =
            reactions.set i (remove_emoji emoji payload reactions i).1 ∧
          (remove_emoji emoji payload reactions i).1 ∈
            (remove_emoji emoji payload reactions i).2) ∧
    remove_emoji (Emoji.mk "e" ["U1", "U2"] 2) (Emoji.mk "e" ["U1"] 1)
        [Emoji.mk "e" ["U1", "U2"] 2] 0 =
      (Emoji.mk "e" ["U2"] 1, [Emoji.mk "e" ["U2"] 1]) := by
  have hil : i < reactions.length := by
    rcases List.getElem?_eq_some.1 hi with ⟨h, _⟩
    exact h
  set emoji' : Emoji :=
    { emoji with
      reactedUsersId := emoji.reactedUsersId.erase (acting payload)
      count := emoji.count - 1 } with hemoji'
  have hil2 : i < (reactions.set i emoji').length := by
    simpa using hil
  have hmem : emoji' ∈ reactions.set i emoji' := by
    have hg : (reactions.set i emoji')[i] = emoji' := List.getElem_set_self hil2
    have hgm := List.getElem_mem hil2
    rw [hg] at hgm
    exact hgm
  refine ⟨rfl, rfl, ?_, ?_, by decide⟩
  · intro hzero
    have hcond : emoji'.count = 0 := hzero
    simp only [remove_emoji, ← hemoji', if_pos hcond]
    rw [List.length_erase_of_mem hmem, List.length_set]
  · intro hnz
    have hcond : ¬ emoji'.count = 0 := hnz
    simp only [remove_emoji, ← hemoji', if_neg hcond]
    exact ⟨trivial, hmem⟩

theorem remove_emoji_removes_user_witness :
    (remove_emoji (Emoji.mk "e" ["U1", "U2"] 2) (Emoji.mk "e" ["U1"] 1)
        [Emoji.mk "e" ["U1", "U2"] 2] 0).1.reactedUsersId =
        (Emoji.mk "e" ["U1", "U2"] 2).reactedUsersId.erase
          (acting (Emoji.mk "e" ["U1"] 1)) ∧
    (remove_emoji (Emoji.mk "e" ["U1", "U2"] 2) (Emoji.mk "e" ["U1"] 1)
        [Emoji.mk "e" ["U1", "U2"] 2] 0).1.count = (Emoji.mk "e" ["U1", "U2"] 2).count - 1 ∧
    ((remove_emoji (Emoji.mk "e" ["U1", "U2"] 2) (Emoji.mk "e" ["U1"] 1)
        [Emoji.mk "e" ["U1", "U2"] 2] 0).1.count = 0 →
        (remove_emoji (Emoji.mk "e" ["U1", "U2"] 2) (Emoji.mk "e" ["U1"] 1)
          [Emoji.mk "e" ["U1", "U2"] 2] 0).2.length =
          [Emoji.mk "e" ["U1", "U2"] 2].length - 1) ∧
    ((remove_emoji (Emoji.mk "e" ["U1", "U2"] 2) (Emoji.mk "e" ["U1"] 1)
        [Emoji.mk "e" ["U1", "U2"] 2] 0).1.count ≠ 0 →
        (remove_emoji (Emoji.mk "e" ["U1", "U2"] 2) (Emoji.mk "e" ["U1"] 1)
            [Emoji.mk "e" ["U1", "U2"] 2] 0).2 =
            [Emoji.mk "e" ["U1", "U2"] 2].set 0
              (remove_emoji (Emoji.mk "e" ["U1", "U2"] 2) (Emoji.mk "e" ["U1"] 1)
                [Emoji.mk "e" ["U1", "U2"] 2] 0).1 ∧
          (remove_emoji (Emoji.mk "e" ["U1", "U2"] 2) (Emoji.mk "e" ["U1"] 1)
              [Emoji.mk "e" ["U1", "U2"] 2] 0).1 ∈
            (remove_emoji (Emoji.mk "e" ["U1", "U2"] 2) (Emoji.mk "e" ["U1"] 1)
              [Emoji.mk "e" ["U1", "U2"] 2] 0).2) ∧
    remove_emoji (Emoji.mk "e" ["U1", "U2"] 2) (Emoji.mk "e" ["U1"] 1)
        [Emoji.mk "e" ["U1", "U2"] 2] 0 =
      (Emoji.mk "e" ["U2"] 1, [Emoji.mk "e" ["U2"] 1]) :=
  remove_emoji_removes_user (Emoji.mk "e" ["U1", "U2"] 2) (Emoji.mk "e" ["U1"] 1)
    [Emoji.mk "e" ["U1", "U2"] 2] 0 (by decide) (by decide) (by decide)

/-- C4: when the acting user is absent (a precondition the engine does not
re-check), `append_emoji` appends exactly that user id at the end of
`reactedUsersId`, increments `count` by exactly 1, and leaves the name
unchanged. -/
theorem append_emoji_appends_user (emoji payload : Emoji) (reactions : List Emoji)
    (i : Nat) (hp : payload.reactedUsersId ≠ [])
    (habs : acting payload ∉ emoji.reactedUsersId) :
    (append_emoji emoji payload reactions i).1.reactedUsersId =
        emoji.reactedUsersId ++ [acting payload] ∧
    (append_emoji emoji payload reactions i).1.count = emoji.count + 1 ∧
    (append_emoji emoji payload reactions i).1.name = emoji.name :=
  ⟨rfl, rfl, rfl⟩

theorem append_emoji_appends_user_witness :
    (append_emoji (Emoji.mk "x" ["u1"] 1) (Emoji.mk "x" ["u2"] 0) [] 0).1.reactedUsersId =
        (Emoji.mk "x" ["u1"] 1).reactedUsersId ++ [acting (Emoji.mk "x" ["u2"] 0)] ∧
    (append_emoji (Emoji.mk "x" ["u1"] 1) (Emoji.mk "x" ["u2"] 0) [] 0).1.count =
        (Emoji.mk "x" ["u1"] 1).count + 1 ∧
    (append_emoji (Emoji.mk "x" ["u1"] 1) (Emoji.mk "x" ["u2"] 0) [] 0).1.name =
        (Emoji.mk "x" ["u1"] 1).name :=
  append_emoji_appends_user (Emoji.mk "x" ["u1"] 1) (Emoji.mk "x" ["u2"] 0) [] 0
    (by decide) (by decide)

/-- C5 fails as stated: toggling twice with the same user is not an
involution on the reaction list.  Concrete input: the list holds the single
reaction `{name := "thumbsup", reactedUsersId := ["u1"], count := 1}`
(which satisfies the count invariant) and user `u1` toggles twice.  The
first toggle removes the user, drops the count to 0 and structurally
deletes the reaction from the list; the second toggle appends the user to
the now-detached reaction object, leaving the list empty instead of
restoring the original one-element list. -/
theorem toggle_reaction_not_involutive :
    countInvariant (Emoji.mk "thumbsup" ["u1"] 1) ∧
    (toggle_reaction
        (toggle_reaction (Emoji.mk "thumbsup" ["u1"] 1) (Emoji.mk "thumbsup" ["u1"] 0)
          [Emoji.mk "thumbsup" ["u1"] 1] 0).1
        (Emoji.mk "thumbsup" ["u1"] 0)
        (toggle_reaction (Emoji.mk "thumbsup" ["u1"] 1) (Emoji.mk "thumbsup" ["u1"] 0)
          [Emoji.mk "thumbsup" ["u1"] 1] 0).2 0).2 = [] ∧
    [Emoji.mk "thumbsup" ["u1"] 1] ≠ ([] : List Emoji) :=
  ⟨by decide, by decide, by decide⟩

/-- C5 (amended): add followed by remove is a no-op on the reaction list:
if the toggled reaction sits at index `i` of the list, satisfies the count
invariant, has at least one reacted user, and the acting user is absent
from it, then toggling twice with that user returns both the reaction and
the list to their exact prior states.  (Remove followed by add is not a
no-op in general: when the count reaches 0 the reaction is deleted from
the list and the second toggle mutates only the detached object, see the
counterexample; and when the count stays positive the re-added user moves
to the end of `reactedUsersId`.) -/
theorem toggle_add_then_remove_restores (emoji payload : Emoji)
    (reactions : List Emoji) (i : Nat)
    (hp : payload.reactedUsersId ≠ [])
    (hinv : countInvariant emoji)
    (hne : emoji.reactedUsersId ≠ [])
    (habs : acting payload ∉ emoji.reactedUsersId)
    (hi : reactions[i]? = some emoji) :
    toggle_reaction (toggle_reaction emoji payload reactions i).1 payload
        (toggle_reaction emoji payload reactions i).2 i =
      (emoji, reactions) := by
  obtain ⟨nm, users, cnt⟩ := emoji
  simp only [countInvariant] at hinv
  have hu : acting payload ∉ users := habs
  have hne2 : users ≠ [] := hne
  have hcnt : cnt = (users.length : Int) := hinv
  have hcnt0 : cnt ≠ 0 := by
    have hpos : 0 < users.length := List.length_pos.mpr hne2
    omega
  have herase : (users ++ [acting payload]).erase (acting payload) = users := by
    rw [List.erase_append_right _ hu]
    simp
  have hstep1 : toggle_reaction (Emoji.mk nm users cnt) payload reactions i =
      (Emoji.mk nm (users ++ [acting payload]) (cnt + 1),
        reactions.set i (Emoji.mk nm (users ++ [acting payload]) (cnt + 1))) := by
    simp [toggle_reaction, append_emoji, hu]
  rw [hstep1]
  have hcond : ¬ (acting payload ∉
      (Emoji.mk nm (users ++ [acting payload]) (cnt + 1)).reactedUsersId) := by
    simp
  simp only [toggle_reaction, if_neg hcond, remove_emoji, herase]
  have hc1 : cnt + 1 - 1 = cnt := by omega
  simp only [hc1, if_neg hcnt0, List.set_set]
  exact congrArg _ (list_set_of_mem_getElem hi)

theorem toggle_add_then_remove_restores_witness :
    toggle_reaction
        (toggle_reaction (Emoji.mk "x" ["u1"] 1) (Emoji.mk "x" ["u2"] 0)
          [Emoji.mk "x" ["u1"] 1] 0).1
        (Emoji.mk "x" ["u2"] 0)
        (toggle_reaction (Emoji.mk "x" ["u1"] 1) (Emoji.mk "x" ["u2"] 0)
          [Emoji.mk "x" ["u1"] 1] 0).2 0 =
      (Emoji.mk "x" ["u1"] 1, [Emoji.mk "x" ["u1"] 1]) :=
  toggle_add_then_remove_restores (Emoji.mk "x" ["u1"] 1) (Emoji.mk "x" ["u2"] 0)
    [Emoji.mk "x" ["u1"] 1] 0 (by decide) (by decide) (by decide) (by decide)
    (by decide)

/-- C6: the full-scan lookup contract fails on the code.  At the concrete
input where the list is `[{name := "a"}, {name := "b"}]` and the requested
name is `"b"`, a matching reaction exists in the list, yet
`get_member_emoji` returns `none`, because the source returns on the very
first loop iteration.  (The empty-list and first-element cases do behave
as the contract says.) -/
theorem get_member_emoji_misses_later_match :
    get_member_emoji "b" [Emoji.mk "a" ["u1"] 1, Emoji.mk "b" ["u2"] 1] = none ∧
    Emoji.mk "b" ["u2"] 1 ∈ [Emoji.mk "a" ["u1"] 1, Emoji.mk "b" ["u2"] 1] ∧
    (Emoji.mk "b" ["u2"] 1).name = "b" :=
  ⟨by decide, by decide, by decide⟩

/-- C7: `get_member_emoji` examines only the first element: on an empty
list it returns `none`; on a non-empty list it returns the head exactly
when the head's name equals the requested name and `none` otherwise, with
the result independent of every element beyond the first. -/
theorem get_member_emoji_first_element_only (emoji_name : String) (e : Emoji)
    (rest : List Emoji) :
    get_member_emoji emoji_name [] = none ∧
    get_member_emoji emoji_name (e :: rest) =
      (if emoji_name = e.name then some e else none) :=
  ⟨rfl, rfl⟩

/-!
Embedding of the remote data gateway (`backend/utils/db.py`) and the
message_utils callers that post-process its responses.

JSON bodies are embedded as `JVal`.  A network attempt is embedded as
`Fetch`: either the transport raised `requests.exceptions.RequestException`
(`Fetch.exn`, which every operation catches), or a response arrived with an
HTTP status code, a parsed JSON body (`response.json()`) and a reason
phrase (`response.reason`).  Each `DataStorage` method becomes a function
of the `Fetch` outcome.  Python `None` is embedded as `Option.none`;
Python exceptions raised during post-processing (`TypeError`, `KeyError`,
`AttributeError`) as `Except.error`.
-/

inductive JVal where
  | jnull
  | jbool (b : Bool)
  | jnum (n : Int)
  | jstr (s : String)
  | jarr (elems : List JVal)
  | jobj (entries : List (String × JVal))

/-- Python truthiness of a JSON value: `None`, `False`, `0`, `""`, `[]`
and `{\x7d` are falsy, everything else truthy. -/
def truthy : JVal → Bool
  | .jnull => false
  | .jbool b => b
  | .jnum n => n != 0
  | .jstr s => s != ""
  | .jarr elems => !elems.isEmpty
  | .jobj entries => !entries.isEmpty

def isPrefixList : List Char → List Char → Bool
  | [], _ => true
  | _ :: _, [] => false
  | p :: ps, h :: hs => p == h && isPrefixList ps hs

def isSubstrList (pat : List Char) : List Char → Bool
  | [] => isPrefixList pat []
  | h :: hs => isPrefixList pat (h :: hs) || isSubstrList pat hs

/-- Python `"status_code" in response`: key lookup on a dict, element
comparison on a list, substring test on a string; raises `TypeError` on
any non-container (`None` never reaches this test in the source because
`and` short-circuits on falsy values). -/
def contains_status_code : JVal → Except String Bool
  | .jobj entries => .ok (entries.any fun kv => kv.1 == "status_code")
  | .jarr elems =>
    .ok (elems.any fun v =>
      match v with
      | .jstr s => s == "status_code"
      | _ => false)
  | .jstr s => .ok (isSubstrList "status_code".data s.data)
  | _ => .error "TypeError"

/-- Python `dict.get(k)`: the value, or `None` when the key is missing;
`AttributeError` when the receiver is not a dict. -/
def jget (v : JVal) (k : String) : Except String (Option JVal) :=
  match v with
  | .jobj entries => .ok ((entries.find? fun kv => kv.1 == k).map fun kv => kv.2)
  | _ => .error "AttributeError"

/-- Python `d[k]` on a parsed JSON value: `KeyError` when missing,
`TypeError` when the receiver is not a dict. -/
def jitem (v : JVal) (k : String) : Except String JVal :=
  match v with
  | .jobj entries =>
    match entries.find? fun kv => kv.1 == k with
    | some kv => .ok kv.2
    | none => .error "KeyError"
  | _ => .error "TypeError"

/-- Outcome of one HTTP request issued by a `DataStorage` method. -/
inductive Fetch where
  | exn
  | resp (status : Nat) (json : JVal) (reason : String)

namespace DataStorage

/-- Python `DataStorage.write` (db.py lines 58-109): on
`RequestException` returns `None`; on status 201 passes `response.json()`
through; otherwise wraps it as an error dict. -/
def write (fetch : Fetch) : Option JVal :=
  match fetch with
  | .exn => none
  | .resp status json _ =>
    if status = 201 then some json
    else some (.jobj [("status_code", .jnum (status : Int)), ("message", json)])

/-- Python `DataStorage.update` (db.py lines 111-166): like `write` with
success status 200. -/
def update (fetch : Fetch) : Option JVal :=
  match fetch with
  | .exn => none
  | .resp status json _ =>
    if status = 200 then some json
    else some (.jobj [("status_code", .jnum (status : Int)), ("message", json)])

/-- Python `DataStorage.read` (db.py lines 169-204): on
`RequestException` returns `None`; on status 200 returns
`response.json().get("data")`; otherwise an error dict whose message is
`response.reason`. -/
def read (fetch : Fetch) : Except String (Option JVal) :=
  match fetch with
  | .exn => .ok none
  | .resp status json reason =>
    if status = 200 then jget json "data"
    else
      .ok (some (.jobj [("status_code", .jnum (status : Int)),
        ("message", .jstr reason)]))

/-- Python `DataStorage.delete` (db.py lines 206-233): on
`RequestException` returns `None`; on status 200 passes `response.json()`
through; otherwise an error dict whose message is `response.reason`. -/
def delete (fetch : Fetch) : Option JVal :=
  match fetch with
  | .exn => none
  | .resp status json reason =>
    if status = 200 then some json
    else some (.jobj [("status_code", .jnum (status : Int)),
      ("message", .jstr reason)])

/-- Python `DataStorage.get_all_members` (db.py lines 235-249): on
`RequestException` returns `[]`; on status 200 returns
`response.json()["data"]`; on any other status the function falls off its
end and implicitly returns `None`. -/
def get_all_members (fetch : Fetch) : Except String (Option JVal) :=
  match fetch with
  | .exn => .ok (some (.jarr []))
  | .resp status json _ =>
    if status = 200 then (jitem json "data").map some
    else .ok none

end DataStorage

/-- Python `get_message` (message_utils.py lines 41-55), modelled from the
point where the gateway response is in hand: `if response and
"status_code" not in response: return response` and `return {\x7d`
otherwise. -/
def get_message (response : Option JVal) : Except String JVal :=
  match response with
  | none => .ok (.jobj [])
  | some v =>
    if truthy v then
      match contains_status_code v with
      | .ok true => .ok (.jobj [])
      | .ok false => .ok v
      | .error e => .error e
    else .ok (.jobj [])

/-- Python `update_reaction` (message_utils.py lines 58-73), modelled from
the point where the gateway response is in hand: the same
`response and "status_code" not in response` post-processing as
`get_message`. -/
def update_reaction (response : Option JVal) : Except String JVal :=
  match response with
  | none => .ok (.jobj [])
  | some v =>
    if truthy v then
      match contains_status_code v with
      | .ok true => .ok (.jobj [])
      | .ok false => .ok v
      | .error e => .error e
    else .ok (.jobj [])

/-- Python `get_room_messages` (message_utils.py lines 25-38):
`return response or []` — the response itself when truthy, `[]`
otherwise; no `status_code` check at all. -/
def get_room_messages (response : Option JVal) : JVal :=
  match response with
  | none => .jarr []
  | some v => if truthy v then v else .jarr []

/-- C8 fails as stated for the member-listing operation.  Concrete input:
on a transport failure `get_all_members` returns `[]`, the very value a
successful listing with zero members returns — not a sentinel distinct
from a successful empty result; and on a 404 response it returns the
implicit `None`, not a structured error object carrying the status code
and a message body. -/
theorem gateway_error_contract_counterexample :
    DataStorage.get_all_members Fetch.exn =
      DataStorage.get_all_members
        (Fetch.resp 200 (.jobj [("data", .jarr [])]) "OK") ∧
    DataStorage.get_all_members Fetch.exn = .ok (some (.jarr [])) ∧
    DataStorage.get_all_members (Fetch.resp 404 (.jobj []) "Not Found") =
      .ok none :=
  ⟨rfl, rfl, rfl⟩

/-- C8 (amended): `write`, `update`, `read` and `delete` return the `None`
sentinel on a transport failure (never raising), and wrap any non-success
response (non-201 for `write`, non-200 for the others) in a structured
error object holding the status code and a message body.
`get_all_members` does not follow this contract: it returns `[]` on a
transport failure (indistinguishable from a successful empty listing) and
an implicit `None`, with no error object, on a non-200 response. -/
theorem gateway_error_contract_amended (status : Nat) (json : JVal)
    (reason : String) :
    DataStorage.write Fetch.exn = none ∧
    DataStorage.update Fetch.exn = none ∧
    DataStorage.read Fetch.exn = .ok none ∧
    DataStorage.delete Fetch.exn = none ∧
    (status ≠ 201 →
      DataStorage.write (Fetch.resp status json reason) =
        some (.jobj [("status_code", .jnum (status : Int)),
          ("message", json)])) ∧
    (status ≠ 200 →
      DataStorage.update (Fetch.resp status json reason) =
        some (.jobj [("status_code", .jnum (status : Int)),
          ("message", json)])) ∧
    (status ≠ 200 →
      DataStorage.read (Fetch.resp status json reason) =
        .ok (some (.jobj [("status_code", .jnum (status : Int)),
          ("message", .jstr reason)]))) ∧
    (status ≠ 200 →
      DataStorage.delete (Fetch.resp status json reason) =
        some (.jobj [("status_code", .jnum (status : Int)),
          ("message", .jstr reason)])) ∧
    DataStorage.get_all_members Fetch.exn = .ok (some (.jarr [])) ∧
    (status ≠ 200 →
      DataStorage.get_all_members (Fetch.resp status json reason) = .ok none) := by
  refine ⟨rfl, rfl, rfl, rfl, ?_, ?_, ?_, ?_, rfl, ?_⟩
  · intro h201
    simp [DataStorage.write, h201]
  · intro h200
    simp [DataStorage.update, h200]
  · intro h200
    simp [DataStorage.read, h200]
  · intro h200
    simp [DataStorage.delete, h200]
  · intro h200
    simp [DataStorage.get_all_members, h200]

theorem gateway_error_contract_amended_witness :
    DataStorage.write Fetch.exn = none ∧
    DataStorage.update Fetch.exn = none ∧
    DataStorage.read Fetch.exn = .ok none ∧
    DataStorage.delete Fetch.exn = none ∧
    ((404 : Nat) ≠ 201 →
      DataStorage.write (Fetch.resp 404 (.jobj []) "Not Found") =
        some (.jobj [("status_code", .jnum ((404 : Nat) : Int)),
          ("message", .jobj [])])) ∧
    ((404 : Nat) ≠ 200 →
      DataStorage.update (Fetch.resp 404 (.jobj []) "Not Found") =
        some (.jobj [("status_code", .jnum ((404 : Nat) : Int)),
          ("message", .jobj [])])) ∧
    ((404 : Nat) ≠ 200 →
      DataStorage.read (Fetch.resp 404 (.jobj []) "Not Found") =
        .ok (some (.jobj [("status_code", .jnum ((404 : Nat) : Int)),
          ("message", .jstr "Not Found")]))) ∧
    ((404 : Nat) ≠ 200 →
      DataStorage.delete (Fetch.resp 404 (.jobj []) "Not Found") =
        some (.jobj [("status_code", .jnum ((404 : Nat) : Int)),
          ("message", .jstr "Not Found")])) ∧
    DataStorage.get_all_members Fetch.exn = .ok (some (.jarr [])) ∧
    ((404 : Nat) ≠ 200 →
      DataStorage.get_all_members (Fetch.resp 404 (.jobj []) "Not Found") =
        .ok none) :=
  gateway_error_contract_amended 404 (.jobj []) "Not Found"

/-- C9: for every gateway response on which the Python membership test
`"status_code" in response` is defined and yields `b`, both `get_message`
and `update_reaction` return the response exactly when it is truthy and
lacks a `status_code` key (`b = false`), and the empty dict otherwise;
a missing (`None`) response also yields the empty dict. -/
theorem status_code_success_discriminator (v : JVal) (b : Bool)
    (hc : contains_status_code v = Except.ok b) :
    get_message (some v) =
      .ok (if truthy v && !b then v else .jobj []) ∧
    update_reaction (some v) =
      .ok (if truthy v && !b then v else .jobj []) ∧
    get_message none = .ok (.jobj []) ∧
    update_reaction none = .ok (.jobj []) := by
  refine ⟨?_, ?_, rfl, rfl⟩ <;>
  · by_cases ht : truthy v = true
    · cases b <;> simp [get_message, update_reaction, ht, hc]
    · simp [get_message, update_reaction, ht]

theorem status_code_success_discriminator_witness :
    (get_message (some (.jobj [("data", .jstr "m")])) =
      .ok (if truthy (.jobj [("data", .jstr "m")]) && !false then
        .jobj [("data", .jstr "m")] else .jobj []) ∧
    update_reaction (some (.jobj [("data", .jstr "m")])) =
      .ok (if truthy (.jobj [("data", .jstr "m")]) && !false then
        .jobj [("data", .jstr "m")] else .jobj []) ∧
    get_message none = .ok (.jobj []) ∧
    update_reaction none = .ok (.jobj [])) :=
  status_code_success_discriminator (.jobj [("data", .jstr "m")]) false rfl

/-- C10: `get_room_messages` applies no `status_code` discrimination: any
truthy response — in particular any non-empty error dict containing a
`status_code` key — passes through unchanged, and the empty list comes
back exactly when the gateway response is `None` or falsy (empty). -/
theorem get_room_messages_no_discriminator (entries : List (String × JVal))
    (v : JVal) (hsc : ∃ p ∈ entries, p.1 = "status_code") :
    get_room_messages (some (.jobj entries)) = .jobj entries ∧
    get_room_messages none = .jarr [] ∧
    (truthy v = false → get_room_messages (some v) = .jarr []) ∧
    (get_room_messages (some v) = .jarr [] → truthy v = false) := by
  refine ⟨?_, rfl, ?_, ?_⟩
  · obtain ⟨p, hp, _⟩ := hsc
    have hne : entries ≠ [] := List.ne_nil_of_mem hp
    have ht : truthy (.jobj entries) = true := by
      simp [truthy, hne]
    simp [get_room_messages, ht]
  · intro hf
    simp [get_room_messages, hf]
  · intro he
    cases htv : truthy v with
    | false => rfl
    | true =>
      simp only [get_room_messages, htv, if_true] at he
      rw [he] at htv
      simp [truthy] at htv

theorem get_room_messages_no_discriminator_witness :
    get_room_messages
        (some (.jobj [("status_code", .jnum 500), ("message", .jstr "err")])) =
      .jobj [("status_code", .jnum 500), ("message", .jstr "err")] ∧
    get_room_messages none = .jarr [] ∧
    (truthy .jnull = false → get_room_messages (some .jnull) = .jarr []) ∧
    (get_room_messages (some .jnull) = .jarr [] → truthy .jnull = false) :=
  get_room_messages_no_discriminator
    [("status_code", .jnum 500), ("message", .jstr "err")] .jnull
    ⟨("status_code", .jnum 500), by simp⟩
